import Mathlib

/-!
# Verification of the INA219 driver (`ina219.py`)

A shallow embedding of the calibration / gain-resolution engine and the
auto-gain control loop of the INA219 current-monitor driver, together with
proofs of the behavioural properties claimed for it.

Modelling conventions:

* Python `float` arithmetic is modelled by exact rational arithmetic over `ℚ`.
  Literals such as `0.04096` denote the exact decimal rational.
* Python `int` is `ℤ` (or `ℕ` where the source value is always non-negative).
* A raising Python function is modelled with `Except`/`Option` result types.
* Register writes are modelled as an explicit log `List (ℕ × ℤ)` of
  `(register, value)` pairs, in the order they are issued on the I2C bus.
* `struct.pack('>H', v)` (used by `__write_register`) raises `struct.error`
  unless `0 ≤ v < 2^16`; this check is modelled before a write is logged.
-/

namespace INA219

/-- Source `RANGE_16V = 0`. -/
def RANGE_16V : ℤ := 0

/-- Source `RANGE_32V = 1`. -/
def RANGE_32V : ℤ := 1

/-- Source `GAIN_1_40MV = 0`. -/
def GAIN_1_40MV : ℤ := 0

/-- Source `GAIN_8_320MV = 3`. -/
def GAIN_8_320MV : ℤ := 3

/-- Source `GAIN_AUTO = -1`. -/
def GAIN_AUTO : ℤ := -1

/-- Source `ADC_12BIT = 3`. -/
def ADC_12BIT : ℕ := 3

/-- Source `__REG_CONFIG = 0x00`. -/
def REG_CONFIG : ℕ := 0x00

/-- Source `__REG_SHUNTVOLTAGE = 0x01`. -/
def REG_SHUNTVOLTAGE : ℕ := 0x01

/-- Source `__REG_BUSVOLTAGE = 0x02`. -/
def REG_BUSVOLTAGE : ℕ := 0x02

/-- Source `__REG_POWER = 0x03`. -/
def REG_POWER : ℕ := 0x03

/-- Source `__REG_CURRENT = 0x04`. -/
def REG_CURRENT : ℕ := 0x04

/-- Source `__REG_CALIBRATION = 0x05`. -/
def REG_CALIBRATION : ℕ := 0x05

/-- Source `__BUS_RANGE = [16, 32]`. -/
def BUS_RANGE : List ℤ := [16, 32]

/-- Source `__GAIN_VOLTS = [0.04, 0.08, 0.16, 0.32]`. -/
def GAIN_VOLTS : List ℚ := [0.04, 0.08, 0.16, 0.32]

/-- Source `__CONT_SH_BUS = 7`. -/
def CONT_SH_BUS : ℕ := 7

/-- Source `__SHUNT_MILLIVOLTS_LSB = 0.01`. -/
def SHUNT_MILLIVOLTS_LSB : ℚ := 0.01

/-- Source `__BUS_MILLIVOLTS_LSB = 4`. -/
def BUS_MILLIVOLTS_LSB : ℚ := 4

/-- Source `__CALIBRATION_FACTOR = 0.04096`. -/
def CALIBRATION_FACTOR : ℚ := 0.04096

/-- Source `__MAX_CALIBRATION_VALUE = 0xFFFE`. -/
def MAX_CALIBRATION_VALUE : ℕ := 0xFFFE

/-- Source `__CURRENT_LSB_FACTOR = 32800`. -/
def CURRENT_LSB_FACTOR : ℚ := 32800

/-- Python list subscription `l[i]`, including negative indexing from the
end; `none` models an `IndexError`. -/
def pyGet {α : Type} (l : List α) (i : ℤ) : Option α :=
  if 0 ≤ i then l.get? i.toNat
  else if (-i).toNat ≤ l.length then l.get? (l.length - (-i).toNat)
  else none

/-- Source `math.trunc` on an exact rational: rounding toward zero. -/
def ratTrunc (q : ℚ) : ℤ := if 0 ≤ q then ⌊q⌋ else ⌈q⌉

/-- Python 3 `round` to an integer: round half to even. -/
def roundHalfEven (q : ℚ) : ℤ :=
  if q - ⌊q⌋ < 1/2 then ⌊q⌋
  else if 1/2 < q - ⌊q⌋ then ⌊q⌋ + 1
  else if Even ⌊q⌋ then ⌊q⌋ else ⌊q⌋ + 1

/-- Python `round(x, 3)` (on the exact-rational model of `float`). -/
def pyRound3 (q : ℚ) : ℚ := (roundHalfEven (q * 1000) : ℚ) / 1000

/-- The exceptions the configuration path can raise. -/
inductive ConfigError : Type
  /-- Source `ValueError(__VOLT_ERR_MSG)` from `__validate_voltage_range`. -/
  | invalidVoltageRange
  /-- Source `ValueError(__AMP_ERR_MSG % (expected, possible))` from
  `_determine_current_lsb`. -/
  | ampError (expected possible : ℚ)
  /-- Source `ValueError(__RNG_ERR_MSG % amps)` from `_determine_gain`. -/
  | rngError (amps : ℚ)
  /-- Source `ValueError` raised by Python's `min()` on an empty sequence, in
  `_determine_gain`. -/
  | emptyMin
  /-- Source `IndexError` from a list subscription. -/
  | indexError
  /-- Source `struct.error` from `struct.pack('>H', v)` with `v` outside
  `[0, 0xFFFF]`, in `__write_register`. -/
  | structError
deriving DecidableEq

/-- Source `_calculate_min_current_lsb`:
`__CALIBRATION_FACTOR / (shunt_ohms * __MAX_CALIBRATION_VALUE)`. -/
def _calculate_min_current_lsb (shunt_ohms : ℚ) : ℚ :=
  CALIBRATION_FACTOR / (shunt_ohms * (MAX_CALIBRATION_VALUE : ℚ))

/-- Source `_determine_current_lsb(max_expected_amps, max_possible_amps)`.
`min_device_current_lsb` is the field computed by the constructor via
`_calculate_min_current_lsb`. -/
def _determine_current_lsb (min_device_current_lsb : ℚ)
    (max_expected_amps : Option ℚ) (max_possible_amps : ℚ) :
    Except ConfigError ℚ :=
  match max_expected_amps with
  | some amps =>
    if pyRound3 max_possible_amps < amps then
      .error (.ampError amps max_possible_amps)
    else
      let current_lsb :=
        if amps < max_possible_amps then amps / CURRENT_LSB_FACTOR
        else max_possible_amps / CURRENT_LSB_FACTOR
      .ok (if current_lsb < min_device_current_lsb then min_device_current_lsb
           else current_lsb)
  | none =>
    let current_lsb := max_possible_amps / CURRENT_LSB_FACTOR
    .ok (if current_lsb < min_device_current_lsb then min_device_current_lsb
         else current_lsb)

/-- The scale factors `_calibrate` computes and the calibration value it
writes to register 0x05. -/
structure CalibrationResult : Type where
  current_lsb : ℚ
  power_lsb : ℚ
  calibration : ℤ
deriving DecidableEq

/-- Source `_calibrate(bus_volts_max, shunt_volts_max, max_expected_amps)`.
`bus_volts_max` is used only in a log message and is omitted.  The register
write of `calibration` happens at the very end of `_calibrate`; everything
before it is pure computation, so the write log is handled by the caller. -/
def _calibrate (shunt_ohms min_device_current_lsb : ℚ)
    (shunt_volts_max : ℚ) (max_expected_amps : Option ℚ) :
    Except ConfigError CalibrationResult :=
  let max_possible_amps := shunt_volts_max / shunt_ohms
  match _determine_current_lsb min_device_current_lsb max_expected_amps
      max_possible_amps with
  | .error e => .error e
  | .ok current_lsb =>
    .ok { current_lsb := current_lsb
          power_lsb := current_lsb * 20
          calibration :=
            ratTrunc (CALIBRATION_FACTOR / (current_lsb * shunt_ohms)) }

/-! ### Shared numerical lemmas about the calibration computation -/

/-- Source `_determine_current_lsb` never returns a value below
`min_device_current_lsb` (the final clamp in the source). -/
theorem determine_current_lsb_ge_min (min_lsb : ℚ) (maxAmps : Option ℚ)
    (mp lsb : ℚ)
    (h : _determine_current_lsb min_lsb maxAmps mp = .ok lsb) :
    min_lsb ≤ lsb := by
  rcases maxAmps with _ | amps <;>
    simp only [_determine_current_lsb] at h <;>
    split_ifs at h with h1 h2 h3 h4 <;>
    first
      | cases h
      | (injection h with h; subst h)
  all_goals linarith

/-- Source `_determine_current_lsb` returns a positive value when the shunt
resistance is positive (the clamp value `min_device_current_lsb` is then
positive). -/
theorem min_current_lsb_pos (shunt_ohms : ℚ) (h : 0 < shunt_ohms) :
    0 < _calculate_min_current_lsb shunt_ohms := by
  unfold _calculate_min_current_lsb CALIBRATION_FACTOR MAX_CALIBRATION_VALUE
  positivity

/-- Core bound: if the current LSB is at least the device minimum
`0.04096 / (shunt_ohms * 0xFFFE)`, the truncated calibration value lies in
`[0, 0xFFFE]`. -/
theorem calibration_bounds (shunt_ohms lsb : ℚ) (h : 0 < shunt_ohms)
    (hlsb : _calculate_min_current_lsb shunt_ohms ≤ lsb) :
    0 ≤ ratTrunc (CALIBRATION_FACTOR / (lsb * shunt_ohms)) ∧
      ratTrunc (CALIBRATION_FACTOR / (lsb * shunt_ohms)) ≤ 65534 := by
  have hmin : 0 < _calculate_min_current_lsb shunt_ohms :=
    min_current_lsb_pos shunt_ohms h
  have hlsb0 : 0 < lsb := lt_of_lt_of_le hmin hlsb
  have hden : 0 < lsb * shunt_ohms := mul_pos hlsb0 h
  have hCF : (0:ℚ) < CALIBRATION_FACTOR := by
    unfold CALIBRATION_FACTOR; norm_num
  have hq : 0 < CALIBRATION_FACTOR / (lsb * shunt_ohms) := div_pos hCF hden
  have hub : CALIBRATION_FACTOR / (lsb * shunt_ohms) ≤ 65534 := by
    rw [div_le_iff hden]
    have h2 : CALIBRATION_FACTOR / (shunt_ohms * (65534:ℚ)) ≤ lsb := by
      have : _calculate_min_current_lsb shunt_ohms =
          CALIBRATION_FACTOR / (shunt_ohms * (65534:ℚ)) := by
        unfold _calculate_min_current_lsb MAX_CALIBRATION_VALUE; norm_num
      linarith [this ▸ hlsb]
    rw [div_le_iff (by positivity : (0:ℚ) < shunt_ohms * 65534)] at h2
    nlinarith
  constructor
  · unfold ratTrunc
    rw [if_pos (le_of_lt hq)]
    exact Int.floor_nonneg.mpr (le_of_lt hq)
  · unfold ratTrunc
    rw [if_pos (le_of_lt hq)]
    have := Int.floor_le_floor hub
    simpa using this

/-- The clamp `if x < m then m else x` at the end of
`_determine_current_lsb` is a maximum. -/
theorem clamp_eq_max (x m : ℚ) : (if x < m then m else x) = max x m := by
  rw [max_def]
  split_ifs <;> linarith

/-- C1: For every valid configure call (`shunt_ohms > 0`, any
`max_expected_amps` accepted by the amps validation, any of the four gain
levels) the value computed for the calibration register,
`trunc(0.04096 / (current_lsb * shunt_ohms))`, lies in `[0, 0xFFFE]`. -/
theorem calibration_register_in_range (shunt_ohms : ℚ) (hpos : 0 < shunt_ohms)
    (maxAmps : Option ℚ) (i : ℕ) (hi : i < 4) (res : CalibrationResult)
    (hok : _calibrate shunt_ohms (_calculate_min_current_lsb shunt_ohms)
        (GAIN_VOLTS.getD i 0) maxAmps = .ok res) :
    0 ≤ res.calibration ∧ res.calibration ≤ 0xFFFE := by
  simp only [_calibrate] at hok
  rcases heq : _determine_current_lsb (_calculate_min_current_lsb shunt_ohms)
      maxAmps (GAIN_VOLTS.getD i 0 / shunt_ohms) with e | lsb <;>
    rw [heq] at hok
  · cases hok
  · injection hok with hok
    subst hok
    have hge := determine_current_lsb_ge_min _ _ _ _ heq
    have hb := calibration_bounds shunt_ohms lsb hpos hge
    simpa using hb

/-- Witness for `calibration_register_in_range` at the documented example
(`shunt = 0.1 Ω`, `max_expected_amps = 0.4 A`, gain level 0). -/
theorem calibration_register_in_range_witness :
    _calibrate (1/10) (_calculate_min_current_lsb (1/10)) (GAIN_VOLTS.getD 0 0)
        (some (2/5)) = .ok ⟨1/82000, 1/4100, 33587⟩ ∧
      (0 ≤ (⟨1/82000, 1/4100, 33587⟩ : CalibrationResult).calibration ∧
        (⟨1/82000, 1/4100, 33587⟩ : CalibrationResult).calibration ≤ 0xFFFE) := by
  have h : _calibrate (1/10) (_calculate_min_current_lsb (1/10))
      (GAIN_VOLTS.getD 0 0) (some (2/5)) =
        .ok (⟨1/82000, 1/4100, 33587⟩ : CalibrationResult) := by
    norm_num [_calibrate, _determine_current_lsb, _calculate_min_current_lsb,
      pyRound3, roundHalfEven, ratTrunc, GAIN_VOLTS, CALIBRATION_FACTOR,
      CURRENT_LSB_FACTOR, MAX_CALIBRATION_VALUE]
  exact ⟨h, calibration_register_in_range (1/10) (by norm_num) (some (2/5)) 0
    (by norm_num) ⟨1/82000, 1/4100, 33587⟩ h⟩

/-- C6: The computed `current_lsb` equals
`max(candidate_amps / 32800, min_device_current_lsb)` where
`candidate_amps` is `max_expected_amps` when given and smaller than
`max_possible_amps`, else `max_possible_amps`; hence
`current_lsb ≥ 0.04096 / (shunt_ohms * 0xFFFE)`. -/
theorem current_lsb_eq_max_formula (shunt_ohms : ℚ) (maxAmps : Option ℚ)
    (mp lsb : ℚ)
    (hok : _determine_current_lsb (_calculate_min_current_lsb shunt_ohms)
        maxAmps mp = .ok lsb) :
    lsb = max ((match maxAmps with
          | some a => if a < mp then a else mp
          | none => mp) / 32800) (_calculate_min_current_lsb shunt_ohms) ∧
      (0.04096 : ℚ) / (shunt_ohms * 0xFFFE) ≤ lsb := by
  have hge := determine_current_lsb_ge_min _ _ _ _ hok
  have hcast : (0.04096 : ℚ) / (shunt_ohms * 0xFFFE) =
      _calculate_min_current_lsb shunt_ohms := by
    norm_num [_calculate_min_current_lsb, CALIBRATION_FACTOR,
      MAX_CALIBRATION_VALUE]
  refine ⟨?_, hcast ▸ hge⟩
  rcases maxAmps with _ | amps <;>
    simp only [_determine_current_lsb] at hok
  · injection hok with hok
    subst hok
    rw [clamp_eq_max]
    rfl
  · split at hok
    · cases hok
    · injection hok with hok
      subst hok
      rw [clamp_eq_max]
      have hdiv : (if amps < mp then amps else mp) / (32800:ℚ) =
          if amps < mp then amps / CURRENT_LSB_FACTOR
          else mp / CURRENT_LSB_FACTOR := by
        split_ifs <;> rfl
      rw [show (match some amps with
          | some a => if a < mp then a else mp
          | none => mp) = if amps < mp then amps else mp from rfl, hdiv]

/-- Witness for `current_lsb_eq_max_formula` at `shunt = 0.1 Ω`,
`max_expected_amps = 0.4 A`, `max_possible_amps = 0.4 A`. -/
theorem current_lsb_eq_max_formula_witness :
    _determine_current_lsb (_calculate_min_current_lsb (1/10)) (some (2/5))
        (2/5) = .ok (1/82000) ∧
      (0.04096 : ℚ) / ((1/10) * 0xFFFE) ≤ 1/82000 := by
  have h : _determine_current_lsb (_calculate_min_current_lsb (1/10))
      (some (2/5)) (2/5) = .ok (1/82000) := by
    norm_num [_determine_current_lsb, _calculate_min_current_lsb, pyRound3,
      roundHalfEven, CALIBRATION_FACTOR, CURRENT_LSB_FACTOR,
      MAX_CALIBRATION_VALUE]
  exact ⟨h, (current_lsb_eq_max_formula (1/10) (some (2/5)) (2/5) (1/82000)
    h).2⟩

/-- Source `_determine_gain(max_expected_amps)`: reject a shunt voltage beyond the
highest gain level, else take `min(v for v in __GAIN_VOLTS if v > shunt_v)`
and return its index.  Python's `min` on an empty sequence raises a
`ValueError` that does not carry the expected amps. -/
def _determine_gain (shunt_ohms max_expected_amps : ℚ) :
    Except ConfigError ℕ :=
  let shunt_v := max_expected_amps * shunt_ohms
  if GAIN_VOLTS.getD 3 0 < shunt_v then .error (.rngError max_expected_amps)
  else
    match (GAIN_VOLTS.filter (fun v => decide (shunt_v < v))).min? with
    | none => .error .emptyMin
    | some g => .ok (GAIN_VOLTS.indexOf g)

/-! ### Evaluation lemmas for `_determine_gain` -/

theorem filter_gains_lt_004 (sv : ℚ) (h : sv < 0.04) :
    GAIN_VOLTS.filter (fun v => decide (sv < v)) = [0.04, 0.08, 0.16, 0.32] := by
  have h2 : sv < 0.08 := by nlinarith [show (0.04:ℚ) < 0.08 by norm_num]
  have h3 : sv < 0.16 := by nlinarith [show (0.04:ℚ) < 0.16 by norm_num]
  have h4 : sv < 0.32 := by nlinarith [show (0.04:ℚ) < 0.32 by norm_num]
  simp [GAIN_VOLTS, List.filter, decide_eq_true h, decide_eq_true h2,
    decide_eq_true h3, decide_eq_true h4]

theorem filter_gains_lt_008 (sv : ℚ) (h1 : ¬ sv < 0.04) (h2 : sv < 0.08) :
    GAIN_VOLTS.filter (fun v => decide (sv < v)) = [0.08, 0.16, 0.32] := by
  have h3 : sv < 0.16 := by nlinarith [show (0.08:ℚ) < 0.16 by norm_num]
  have h4 : sv < 0.32 := by nlinarith [show (0.08:ℚ) < 0.32 by norm_num]
  simp [GAIN_VOLTS, List.filter, decide_eq_false h1, decide_eq_true h2,
    decide_eq_true h3, decide_eq_true h4]

theorem filter_gains_lt_016 (sv : ℚ) (h1 : ¬ sv < 0.08) (h2 : sv < 0.16) :
    GAIN_VOLTS.filter (fun v => decide (sv < v)) = [0.16, 0.32] := by
  have h0 : ¬ sv < 0.04 := by intro hc; apply h1; nlinarith
  have h4 : sv < 0.32 := by nlinarith [show (0.16:ℚ) < 0.32 by norm_num]
  simp [GAIN_VOLTS, List.filter, decide_eq_false h0, decide_eq_false h1,
    decide_eq_true h2, decide_eq_true h4]

theorem filter_gains_lt_032 (sv : ℚ) (h1 : ¬ sv < 0.16) (h2 : sv < 0.32) :
    GAIN_VOLTS.filter (fun v => decide (sv < v)) = [0.32] := by
  have h0 : ¬ sv < 0.04 := by intro hc; apply h1; nlinarith
  have h0' : ¬ sv < 0.08 := by intro hc; apply h1; nlinarith
  simp [GAIN_VOLTS, List.filter, decide_eq_false h0, decide_eq_false h0',
    decide_eq_false h1, decide_eq_true h2]

theorem filter_gains_ge_032 (sv : ℚ) (h : ¬ sv < 0.32) :
    GAIN_VOLTS.filter (fun v => decide (sv < v)) = [] := by
  have h0 : ¬ sv < 0.04 := by intro hc; apply h; nlinarith
  have h1 : ¬ sv < 0.08 := by intro hc; apply h; nlinarith
  have h2 : ¬ sv < 0.16 := by intro hc; apply h; nlinarith
  simp [GAIN_VOLTS, List.filter, decide_eq_false h0, decide_eq_false h1,
    decide_eq_false h2, decide_eq_false h]

theorem indexOf_gains_004 : GAIN_VOLTS.indexOf 0.04 = 0 := by
  simp [GAIN_VOLTS]

theorem indexOf_gains_008 : GAIN_VOLTS.indexOf 0.08 = 1 := by
  simp [GAIN_VOLTS, List.indexOf_cons_ne _ (show (0.04:ℚ) ≠ 0.08 by norm_num)]

theorem indexOf_gains_016 : GAIN_VOLTS.indexOf 0.16 = 2 := by
  simp [GAIN_VOLTS, List.indexOf_cons_ne _ (show (0.04:ℚ) ≠ 0.16 by norm_num),
    List.indexOf_cons_ne _ (show (0.08:ℚ) ≠ 0.16 by norm_num)]

theorem indexOf_gains_032 : GAIN_VOLTS.indexOf 0.32 = 3 := by
  simp [GAIN_VOLTS, List.indexOf_cons_ne _ (show (0.04:ℚ) ≠ 0.32 by norm_num),
    List.indexOf_cons_ne _ (show (0.08:ℚ) ≠ 0.32 by norm_num),
    List.indexOf_cons_ne _ (show (0.16:ℚ) ≠ 0.32 by norm_num)]

/-- C5 counterexample: At `shunt_ohms = 1`, `max_expected_amps = 0.32`
the product equals `0.32` exactly: no gain level strictly exceeds it, yet
`_determine_gain` does not raise the out-of-range error naming the expected
amps (the `>` guard does not fire); it raises Python's `min()`
empty-sequence `ValueError` instead. -/
theorem determine_gain_boundary_counterexample :
    _determine_gain 1 (8/25) = .error .emptyMin ∧
      ConfigError.emptyMin ≠ ConfigError.rngError (8/25) := by
  refine ⟨?_, by simp⟩
  have hfe := filter_gains_ge_032 (8/25 * 1) (by norm_num)
  simp only [_determine_gain]
  rw [if_neg (by norm_num [GAIN_VOLTS]), hfe]
  simp [List.min?]

/-- C5 (amended): With gain `AUTO` and `max_expected_amps` given:
if `max_expected_amps * shunt_ohms > 0.32` the resolver fails with the
out-of-range error naming the expected amps; if the product equals `0.32`
exactly it also fails, but with an error (from `min()` on an empty
sequence) that does not name the amps; if the product is below `0.32` it
selects the smallest gain level whose full-scale voltage strictly exceeds
the product. -/
theorem determine_gain_spec (shunt_ohms amps : ℚ) :
    ((0.32:ℚ) < amps * shunt_ohms →
        _determine_gain shunt_ohms amps = .error (.rngError amps)) ∧
      (amps * shunt_ohms = (0.32:ℚ) →
        _determine_gain shunt_ohms amps = .error .emptyMin) ∧
      (amps * shunt_ohms < (0.32:ℚ) →
        ∃ i : ℕ, _determine_gain shunt_ohms amps = .ok i ∧ i < 4 ∧
          amps * shunt_ohms < GAIN_VOLTS.getD i 0 ∧
          ∀ j : ℕ, j < i → GAIN_VOLTS.getD j 0 ≤ amps * shunt_ohms) := by
  refine ⟨fun h => ?_, fun h => ?_, fun h => ?_⟩
  · simp only [_determine_gain]
    rw [if_pos (by norm_num [GAIN_VOLTS]; nlinarith)]
  · have hfe := filter_gains_ge_032 (amps * shunt_ohms) (by rw [h]; norm_num)
    simp only [_determine_gain]
    rw [if_neg (by norm_num [GAIN_VOLTS]; nlinarith [h.le]), hfe]
    simp [List.min?]
  · have hneg : ¬ GAIN_VOLTS.getD 3 0 < amps * shunt_ohms := by
      norm_num [GAIN_VOLTS]; nlinarith
    rcases lt_or_le (amps * shunt_ohms) 0.04 with h1 | h1
    · refine ⟨0, ?_, by norm_num, by simpa [GAIN_VOLTS] using h1,
        by intro j hj; omega⟩
      simp only [_determine_gain]
      rw [if_neg hneg, filter_gains_lt_004 _ h1]
      simp [List.min?, List.foldl,
        min_eq_left (show (0.04:ℚ) ≤ 0.08 by norm_num),
        min_eq_left (show (0.04:ℚ) ≤ 0.16 by norm_num),
        min_eq_left (show (0.04:ℚ) ≤ 0.32 by norm_num), indexOf_gains_004]
    · rcases lt_or_le (amps * shunt_ohms) 0.08 with h2 | h2
      · refine ⟨1, ?_, by norm_num, by simpa [GAIN_VOLTS] using h2, ?_⟩
        · simp only [_determine_gain]
          rw [if_neg hneg, filter_gains_lt_008 _ (not_lt.mpr h1) h2]
          simp [List.min?, List.foldl,
            min_eq_left (show (0.08:ℚ) ≤ 0.16 by norm_num),
            min_eq_left (show (0.08:ℚ) ≤ 0.32 by norm_num), indexOf_gains_008]
        · intro j hj
          interval_cases j
          simpa [GAIN_VOLTS] using h1
      · rcases lt_or_le (amps * shunt_ohms) 0.16 with h3 | h3
        · refine ⟨2, ?_, by norm_num, by simpa [GAIN_VOLTS] using h3, ?_⟩
          · simp only [_determine_gain]
            rw [if_neg hneg, filter_gains_lt_016 _ (not_lt.mpr h2) h3]
            simp [List.min?, List.foldl,
              min_eq_left (show (0.16:ℚ) ≤ 0.32 by norm_num), indexOf_gains_016]
          · intro j hj
            interval_cases j
            · simpa [GAIN_VOLTS] using h1
            · simpa [GAIN_VOLTS] using h2
        · refine ⟨3, ?_, by norm_num, by simpa [GAIN_VOLTS] using h, ?_⟩
          · simp only [_determine_gain]
            rw [if_neg hneg, filter_gains_lt_032 _ (not_lt.mpr h3) h]
            simp [List.min?, List.foldl, indexOf_gains_032]
          · intro j hj
            interval_cases j
            · simpa [GAIN_VOLTS] using h1
            · simpa [GAIN_VOLTS] using h2
            · simpa [GAIN_VOLTS] using h3

/-- Witness for `determine_gain_spec` at `shunt_ohms = 1`,
`max_expected_amps = 0.05` (selects the 80 mV level, index 1). -/
theorem determine_gain_spec_witness :
    ∃ i : ℕ, _determine_gain 1 (1/20) = .ok i ∧ i < 4 ∧
      (1/20 : ℚ) * 1 < GAIN_VOLTS.getD i 0 ∧
      ∀ j : ℕ, j < i → GAIN_VOLTS.getD j 0 ≤ (1/20 : ℚ) * 1 :=
  (determine_gain_spec 1 (1/20)).2.2 (by norm_num)

/-! ### The `configure` pipeline -/

/-- Python's `<<` on an unbounded integer with a non-negative shift. -/
def pyShl (x : ℤ) (n : ℕ) : ℤ := x * 2 ^ n

/-- Python's `|` on unbounded integers (two's-complement bitwise or;
`Int.negSucc m` has bit pattern `¬m`, and `n &&& ¬m = n - (n &&& m)`). -/
def pyOr : ℤ → ℤ → ℤ
  | .ofNat m, .ofNat n => .ofNat (m ||| n)
  | .ofNat m, .negSucc n => .negSucc (n - (n &&& m))
  | .negSucc m, .ofNat n => .negSucc (m - (m &&& n))
  | .negSucc m, .negSucc n => .negSucc (m &&& n)

/-- The configuration word assembled by `_configure`:
`voltage_range << 13 | gain << 11 | bus_adc << 7 | shunt_adc << 3 | 0b111`,
evaluated left to right with Python integer semantics. -/
def configWord (voltage_range gain : ℤ) (bus_adc shunt_adc : ℕ) : ℤ :=
  pyOr (pyOr (pyOr (pyOr (pyShl voltage_range 13) (pyShl gain 11))
    (pyShl bus_adc 7)) (pyShl shunt_adc 3)) (CONT_SH_BUS : ℤ)

/-- Source `struct.pack('>H', v)` succeeds exactly on `0 ≤ v < 2^16`. -/
def packableH (v : ℤ) : Prop := 0 ≤ v ∧ v < 65536

instance (v : ℤ) : Decidable (packableH v) := by
  unfold packableH; infer_instance

/-- Source `configure(voltage_range, gain, bus_adc, shunt_adc)` on a driver built
with `INA219(shunt_ohms, max_expected_amps)`.  Returns the ordered log of
register writes issued on the bus together with the exception raised, if
any.  Mirrors the source flow: `__validate_voltage_range` (which only
rejects selectors above the last index of `__BUS_RANGE`), gain resolution,
the eager log formatting at lines 170-177 (which subscripts
`__GAIN_VOLTS[self._gain]` and `__BUS_RANGE[voltage_range]`, the latter
accepting negative selectors by Python negative indexing), `_calibrate`
(amps validation, then the calibration-register write), `_configure`
(the configuration-register write). -/
def configure (shunt_ohms : ℚ) (max_expected_amps : Option ℚ)
    (voltage_range gain : ℤ) (bus_adc shunt_adc : ℕ) :
    List (ℕ × ℤ) × Option ConfigError :=
  if 1 < voltage_range then ([], some .invalidVoltageRange)
  else
    let resolved : Except ConfigError ℤ :=
      match max_expected_amps with
      | some amps =>
        if gain = GAIN_AUTO then
          match _determine_gain shunt_ohms amps with
          | .error e => .error e
          | .ok g => .ok (g : ℤ)
        else .ok gain
      | none => if gain ≠ GAIN_AUTO then .ok gain else .ok GAIN_1_40MV
    match resolved with
    | .error e => ([], some e)
    | .ok g =>
      match pyGet GAIN_VOLTS g, pyGet BUS_RANGE voltage_range with
      | some gain_volts, some _bus_volts_max =>
        match _calibrate shunt_ohms (_calculate_min_current_lsb shunt_ohms)
            gain_volts max_expected_amps with
        | .error e => ([], some e)
        | .ok cal =>
          if packableH cal.calibration then
            let cfg := configWord voltage_range g bus_adc shunt_adc
            if packableH cfg then
              ([(REG_CALIBRATION, cal.calibration), (REG_CONFIG, cfg)], none)
            else ([(REG_CALIBRATION, cal.calibration)], some .structError)
          else ([], some .structError)
      | _, _ => ([], some .indexError)

/-- C7: Configuring with `shunt = 0.1 Ω`, `max_expected_amps = 0.4 A`,
`RANGE_16V`, `GAIN_1_40MV` and 12-bit ADCs writes exactly `0x8333` to the
calibration register (0x05) and then exactly `0x019F` to the configuration
register (0x00), in that order. -/
theorem configure_example_writes :
    configure (1/10) (some (2/5)) RANGE_16V GAIN_1_40MV ADC_12BIT ADC_12BIT =
      ([(REG_CALIBRATION, 0x8333), (REG_CONFIG, 0x019F)], none) := by
  have hcal : _calibrate (1/10) (_calculate_min_current_lsb (1/10))
      (1/25 : ℚ) (some (2/5)) =
        .ok (⟨1/82000, 1/4100, 33587⟩ : CalibrationResult) := by
    norm_num [_calibrate, _determine_current_lsb, _calculate_min_current_lsb,
      pyRound3, roundHalfEven, ratTrunc, CALIBRATION_FACTOR,
      CURRENT_LSB_FACTOR, MAX_CALIBRATION_VALUE]
  simp only [configure, RANGE_16V, GAIN_1_40MV, GAIN_AUTO, ADC_12BIT,
    pyGet, GAIN_VOLTS, BUS_RANGE, configWord, pyShl, pyOr, CONT_SH_BUS,
    REG_CALIBRATION, REG_CONFIG]
  norm_num
  simp only [hcal]
  decide

/-- The configuration errors named by the error-handling design: invalid
voltage range selector, expected current exceeding device capability, and
auto-gain unable to satisfy the expected current (either the `>` guard or
the empty `min()` at the exact boundary). -/
def ConfigError.isValidationError : ConfigError → Prop
  | .invalidVoltageRange => True
  | .ampError _ _ => True
  | .rngError _ => True
  | .emptyMin => True
  | .indexError => False
  | .structError => False

/-- C8: Whenever `configure` raises a configuration error (invalid
voltage range, expected current exceeding capability, or auto-gain unable
to satisfy the expected current), no register write has been issued by that
call. -/
theorem configure_validation_error_no_writes (shunt_ohms : ℚ)
    (maxAmps : Option ℚ) (vr g : ℤ) (ba sa : ℕ)
    (writes : List (ℕ × ℤ)) (e : ConfigError)
    (h : configure shunt_ohms maxAmps vr g ba sa = (writes, some e))
    (he : e.isValidationError) : writes = [] := by
  simp only [configure] at h
  repeat' split at h
  all_goals injection h with h1 h2
  all_goals
    first
      | exact h1.symm
      | (cases h2 <;> simp [ConfigError.isValidationError] at he)

/-- Witness for `configure_validation_error_no_writes`: requesting
auto-gain with `shunt = 0.1 Ω` and `max_expected_amps = 4 A` needs more
than 320 mV of shunt voltage, so `configure` raises the out-of-range
error having written nothing. -/
theorem configure_validation_error_no_writes_witness :
    configure (1/10) (some 4) RANGE_32V GAIN_AUTO ADC_12BIT ADC_12BIT =
        ([], some (.rngError 4)) ∧ ([] : List (ℕ × ℤ)) = [] := by
  have h : configure (1/10) (some 4) RANGE_32V GAIN_AUTO ADC_12BIT
      ADC_12BIT = ([], some (.rngError 4)) := by
    have hdg : _determine_gain (1/10) 4 = .error (.rngError 4) := by
      simp only [_determine_gain]
      rw [if_pos (by norm_num [GAIN_VOLTS])]
    simp only [configure, RANGE_32V, GAIN_AUTO, ADC_12BIT]
    norm_num [hdg]
  exact ⟨h, configure_validation_error_no_writes (1/10) (some 4) RANGE_32V
    GAIN_AUTO ADC_12BIT ADC_12BIT [] (.rngError 4) h (by trivial)⟩

/-- C9 (code bug): `__validate_voltage_range` only rejects selectors
greater than 1, so the negative selector `-1` is accepted: Python negative
indexing resolves `__BUS_RANGE[-1]` to 32, the calibration register write
is issued, and the call then dies in `struct.pack` on the negative
configuration word — not with the documented configuration error, and not
before a register write. -/
theorem configure_negative_range_bug :
    configure (1/10) (some (2/5)) (-1) GAIN_1_40MV ADC_12BIT ADC_12BIT =
        ([(REG_CALIBRATION, 0x8333)], some .structError) ∧
      ¬ (1:ℤ) < -1 := by
  have hcal : _calibrate (1/10) (_calculate_min_current_lsb (1/10))
      (1/25 : ℚ) (some (2/5)) =
        .ok (⟨1/82000, 1/4100, 33587⟩ : CalibrationResult) := by
    norm_num [_calibrate, _determine_current_lsb, _calculate_min_current_lsb,
      pyRound3, roundHalfEven, ratTrunc, CALIBRATION_FACTOR,
      CURRENT_LSB_FACTOR, MAX_CALIBRATION_VALUE]
  refine ⟨?_, by norm_num⟩
  simp only [configure, GAIN_1_40MV, GAIN_AUTO, ADC_12BIT, pyGet,
    GAIN_VOLTS, BUS_RANGE, configWord, pyShl, pyOr, CONT_SH_BUS,
    REG_CALIBRATION, REG_CONFIG]
  norm_num
  simp only [hcal]
  decide

/-! ### The auto-gain overflow loop -/

/-- The fields carried by a raised `DeviceRangeError`. -/
structure DeviceRangeError : Type where
  gain_volts : ℚ
  device_limit_reached : Bool
deriving DecidableEq

/-- Exceptions a read call can raise. -/
inductive ReadError : Type
  | range (e : DeviceRangeError)
  | structPack
deriving DecidableEq

/-- Driver-and-device state during the auto-gain loop: the shunt
resistance and minimum LSB fixed at construction, the contents of the
configuration register (a write is stored and read back unchanged — the
proviso of the termination claim), the scale factors, and the cumulative
write log. -/
structure AGState : Type where
  shunt_ohms : ℚ
  min_device_current_lsb : ℚ
  config : ℕ
  current_lsb : ℚ
  power_lsb : ℚ
  writes : List (ℕ × ℤ)
deriving DecidableEq

/-- Source `_read_gain`: `(configuration & 0x1800) >> __PG0`. -/
def _read_gain (config : ℕ) : ℕ := (config &&& 0x1800) >>> 11

/-- Source `_increase_gain`: read the gain from the configuration register; below
the top level, recalibrate for the next level (`_calibrate` with no
`max_expected_amps`, so the amps validation cannot fire) and rewrite the
gain bits by read-modify-write; at the top level raise
`DeviceRangeError(__GAIN_VOLTS[gain], True)` without touching the device.
The first component of `_calibrate`, `__BUS_RANGE[self._voltage_range]`,
is only logged and is omitted. -/
def _increase_gain (st : AGState) : AGState × Option ReadError :=
  let gain := _read_gain st.config
  if gain < 3 then
    let gain := gain + 1
    let max_possible_amps := GAIN_VOLTS.getD gain 0 / st.shunt_ohms
    let lsb0 := max_possible_amps / CURRENT_LSB_FACTOR
    let current_lsb :=
      if lsb0 < st.min_device_current_lsb then st.min_device_current_lsb
      else lsb0
    let calibration :=
      ratTrunc (CALIBRATION_FACTOR / (current_lsb * st.shunt_ohms))
    if packableH calibration then
      let newConfig := (st.config &&& 0xE7FF) ||| (gain <<< 11)
      if packableH (newConfig : ℤ) then
        ({ st with
            current_lsb := current_lsb
            power_lsb := current_lsb * 20
            config := newConfig
            writes := st.writes ++
              [(REG_CALIBRATION, calibration),
               (REG_CONFIG, (newConfig : ℤ))] }, none)
      else
        ({ st with
            current_lsb := current_lsb
            power_lsb := current_lsb * 20
            writes := st.writes ++ [(REG_CALIBRATION, calibration)] },
          some .structPack)
    else
      ({ st with
          current_lsb := current_lsb
          power_lsb := current_lsb * 20 }, some .structPack)
  else (st, some (.range ⟨GAIN_VOLTS.getD gain 0, true⟩))

/-- The `while self._has_current_overflow(): self._increase_gain()` loop of
`_handle_current_overflow` with auto gain enabled.  `ovf i` is the overflow
bit returned by the `i`-th read of the bus-voltage register; `fuel` bounds
the recursion and is proved sufficient at 4.  Returns the final state, the
index of the last overflow-bit read (equal to the number of gain
escalations performed when starting at index 0), and the raised error, if
any. -/
def _handle_current_overflow_auto (ovf : ℕ → Bool) :
    ℕ → AGState → ℕ → Option (AGState × ℕ × Option ReadError)
  | 0, _, _ => none
  | fuel + 1, st, i =>
    if ovf i then
      match _increase_gain st with
      | (st', none) => _handle_current_overflow_auto ovf fuel st' (i + 1)
      | (st', some e) => some (st', i, some e)
    else some (st, i, none)

/-- Source `current()` with auto gain enabled: run the overflow loop, then read
the current register (`currentReg`, already sign-decoded) and scale it by
`self._current_lsb * 1000`. -/
def current_auto (ovf : ℕ → Bool) (currentReg : ℤ) (st : AGState) :
    Option (Except ReadError ℚ) :=
  match _handle_current_overflow_auto ovf 4 st 0 with
  | none => none
  | some (_, _, some e) => some (.error e)
  | some (st', _, none) => some (.ok (currentReg * st'.current_lsb * 1000))

/-- The driver construction invariant relating the cached minimum LSB to
the shunt resistance. -/
def WF (st : AGState) : Prop :=
  0 < st.shunt_ohms ∧
    st.min_device_current_lsb = _calculate_min_current_lsb st.shunt_ohms

theorem read_gain_le_three (c : ℕ) : _read_gain c ≤ 3 := by
  have h1 : c &&& 0x1800 ≤ 0x1800 := Nat.and_le_right
  have : (c &&& 0x1800) >>> 11 ≤ 0x1800 >>> 11 := by
    simpa [Nat.shiftRight_eq_div_pow] using Nat.div_le_div_right h1
  simpa [_read_gain] using this

theorem read_gain_after_set (c g : ℕ) (h : g ≤ 3) :
    _read_gain ((c &&& 0xE7FF) ||| (g <<< 11)) = g := by
  simp only [_read_gain]
  rw [Nat.and_distrib_right, Nat.and_assoc]
  interval_cases g <;>
    simp only [show (59391 &&& 6144 : ℕ) = 0 from by decide, Nat.and_zero,
      Nat.zero_or] <;>
    decide

theorem increase_gain_maxed (st : AGState)
    (h : ¬ _read_gain st.config < 3) :
    _increase_gain st =
      (st, some (.range ⟨GAIN_VOLTS.getD (_read_gain st.config) 0, true⟩)) := by
  simp [_increase_gain, h]

theorem increase_gain_ok (st : AGState) (hwf : WF st)
    (hlt : _read_gain st.config < 3) :
    ∃ st', _increase_gain st = (st', none) ∧
      _read_gain st'.config = _read_gain st.config + 1 ∧ WF st' ∧
      st'.shunt_ohms = st.shunt_ohms := by
  obtain ⟨hpos, hmin⟩ := hwf
  set g := _read_gain st.config with hg
  set lsb0 := GAIN_VOLTS.getD (g + 1) 0 / st.shunt_ohms / CURRENT_LSB_FACTOR
    with hlsb0
  set lsb := if lsb0 < st.min_device_current_lsb
    then st.min_device_current_lsb else lsb0 with hlsb
  have hge : _calculate_min_current_lsb st.shunt_ohms ≤ lsb := by
    rw [hlsb]
    split_ifs with hc
    · exact le_of_eq hmin.symm
    · exact le_trans (le_of_eq hmin.symm) (le_of_not_lt hc)
  have hcalb := calibration_bounds st.shunt_ohms lsb hpos hge
  have hpack : packableH
      (ratTrunc (CALIBRATION_FACTOR / (lsb * st.shunt_ohms))) := by
    exact ⟨hcalb.1, by omega⟩
  have hcfg : (st.config &&& 0xE7FF) ||| ((g + 1) <<< 11) < 2 ^ 16 := by
    have hx : st.config &&& 0xE7FF < 2 ^ 16 :=
      lt_of_le_of_lt Nat.and_le_right (by norm_num)
    have hy : (g + 1) <<< 11 < 2 ^ 16 := by
      rw [Nat.shiftLeft_eq]
      omega
    exact Nat.or_lt_two_pow hx hy
  have hpack2 : packableH
      (((st.config &&& 0xE7FF) ||| ((g + 1) <<< 11) : ℕ) : ℤ) := by
    constructor
    · positivity
    · exact_mod_cast lt_of_lt_of_eq hcfg (by norm_num)
  refine ⟨{ st with
      current_lsb := lsb
      power_lsb := lsb * 20
      config := (st.config &&& 0xE7FF) ||| ((g + 1) <<< 11)
      writes := st.writes ++
        [(REG_CALIBRATION,
            ratTrunc (CALIBRATION_FACTOR / (lsb * st.shunt_ohms))),
         (REG_CONFIG,
            (((st.config &&& 0xE7FF) ||| ((g + 1) <<< 11) : ℕ) : ℤ))] },
    ?_, ?_, ⟨hpos, hmin⟩, rfl⟩
  · simp only [_increase_gain, ← hg, if_pos hlt, ← hlsb0, ← hlsb,
      if_pos hpack, if_pos hpack2]
  · simpa using read_gain_after_set st.config (g + 1) (by omega)

/-- Fuel induction for the overflow loop: with at least `4 - gain` units of
fuel the loop yields a result, having read the overflow bit at most
`3 - gain` further times; when it ends without an error the last
overflow-bit reading was clear. -/
theorem overflow_loop_result (ovf : ℕ → Bool) :
    ∀ (fuel : ℕ) (st : AGState) (i : ℕ), WF st →
      4 - _read_gain st.config ≤ fuel →
      ∃ st' i' e,
        _handle_current_overflow_auto ovf fuel st i = some (st', i', e) ∧
          i' ≤ i + (3 - _read_gain st.config) ∧
          (e = none → ovf i' = false) := by
  intro fuel
  induction fuel with
  | zero =>
    intro st i _ hfuel
    have := read_gain_le_three st.config
    omega
  | succ fuel ih =>
    intro st i hwf hfuel
    by_cases hovf : ovf i
    · by_cases hlt : _read_gain st.config < 3
      · obtain ⟨st', heq, hrg, hwf', _⟩ := increase_gain_ok st hwf hlt
        obtain ⟨st'', i'', e, hloop, hle, he⟩ :=
          ih st' (i + 1) hwf' (by omega)
        refine ⟨st'', i'', e, ?_, by omega, he⟩
        simp only [_handle_current_overflow_auto, hovf, if_pos, heq]
        exact hloop
      · refine ⟨st, i, some (.range ⟨GAIN_VOLTS.getD (_read_gain st.config) 0,
          true⟩), ?_, by omega, by simp⟩
        simp only [_handle_current_overflow_auto, hovf, if_pos,
          increase_gain_maxed st hlt]
    · refine ⟨st, i, none, ?_, by omega, fun _ => by simpa using hovf⟩
      simp [_handle_current_overflow_auto, hovf]

/-- C2: With auto gain enabled (and writes to the configuration
register read back unchanged, which holds by construction of `AGState`),
the overflow loop terminates with fuel 4, performs at most 3 gain
escalations, and when the overflow bit clears at some gain level the
`current()` call returns the scaled reading without raising. -/
theorem auto_gain_loop_bounded (ovf : ℕ → Bool) (st : AGState)
    (currentReg : ℤ) (hwf : WF st) :
    ∃ st' i' e,
      _handle_current_overflow_auto ovf 4 st 0 = some (st', i', e) ∧
        i' ≤ 3 ∧
        (e = none → ovf i' = false ∧
          current_auto ovf currentReg st =
            some (.ok (currentReg * st'.current_lsb * 1000))) := by
  obtain ⟨st', i', e, hloop, hle, he⟩ :=
    overflow_loop_result ovf 4 st 0 hwf (by omega)
  refine ⟨st', i', e, hloop, by omega, fun hnone => ⟨he hnone, ?_⟩⟩
  subst hnone
  simp [current_auto, hloop]

/-- Witness for `auto_gain_loop_bounded`: overflow on the first reading
only, starting from the post-configure state of the documented example
(configuration word `0x99F`, gain level 1). -/
theorem auto_gain_loop_bounded_witness :
    ∃ st' i' e,
      _handle_current_overflow_auto (fun i => decide (i = 0)) 4
          ⟨1/10, _calculate_min_current_lsb (1/10), 0x99F, 1/82000, 1/4100,
            []⟩ 0 = some (st', i', e) ∧
        i' ≤ 3 ∧
        (e = none → (fun i => decide (i = 0)) i' = false ∧
          current_auto (fun i => decide (i = 0)) 100
              ⟨1/10, _calculate_min_current_lsb (1/10), 0x99F, 1/82000,
                1/4100, []⟩ =
            some (.ok (100 * st'.current_lsb * 1000))) :=
  auto_gain_loop_bounded (fun i => decide (i = 0))
    ⟨1/10, _calculate_min_current_lsb (1/10), 0x99F, 1/82000, 1/4100, []⟩
    100 ⟨by norm_num, rfl⟩

/-- C3: With auto gain enabled, if the overflow bit is set and the gain
read back from the configuration register is already the highest level,
the loop raises `DeviceRangeError(0.32, device_limit_reached := true)`
immediately: the returned state is the initial one, so no register write
and no escalation happened, and no further overflow reading occurs. -/
theorem auto_gain_device_limit (ovf : ℕ → Bool) (st : AGState)
    (hovf : ovf 0 = true) (hg : _read_gain st.config = 3) :
    _handle_current_overflow_auto ovf 4 st 0 =
      some (st, 0, some (.range ⟨0.32, true⟩)) := by
  have hmax := increase_gain_maxed st (by omega)
  rw [hg] at hmax
  simp only [_handle_current_overflow_auto, hovf, if_pos, hmax,
    show (GAIN_VOLTS.getD 3 0 : ℚ) = 0.32 from by norm_num [GAIN_VOLTS]]

/-- Witness for `auto_gain_device_limit` with the gain bits of the
configuration register at the 320 mV level. -/
theorem auto_gain_device_limit_witness :
    _handle_current_overflow_auto (fun _ => true) 4
        ⟨1, _calculate_min_current_lsb 1, 0x1800, 0, 0, []⟩ 0 =
      some (⟨1, _calculate_min_current_lsb 1, 0x1800, 0, 0, []⟩, 0,
        some (.range ⟨0.32, true⟩)) :=
  auto_gain_device_limit (fun _ => true)
    ⟨1, _calculate_min_current_lsb 1, 0x1800, 0, 0, []⟩ rfl (by decide)

/-! ### Reads and the manual (non-auto) overflow path -/

/-- Python truthiness of the `Optional[int]` field `self._gain`. -/
def pyTruthy : Option ℤ → Bool
  | none => false
  | some n => n != 0

/-- The non-auto branch of `_handle_current_overflow`:
`raise DeviceRangeError(self.__GAIN_VOLTS[self._gain] if self._gain else 0.0)`.
Note the Python truthiness test: a configured gain of 0 (`GAIN_1_40MV`) is
falsy just like `None`, so the error then carries `0.0` rather than
`__GAIN_VOLTS[0]`.  (A gain index outside the list, unreachable through
`configure`, is defaulted rather than modelled as an `IndexError`.) -/
def _handle_current_overflow_manual (hasOverflow : Bool) (gain : Option ℤ) :
    Option DeviceRangeError :=
  if hasOverflow then
    some ⟨if pyTruthy gain then (pyGet GAIN_VOLTS (gain.getD 0)).getD 0
      else 0, false⟩
  else none

/-- C4 (code bug): With overflow set and auto gain disabled: at gain
level 0 (`GAIN_1_40MV`) the raised `DeviceRangeError` carries
`gain_volts = 0.0` — not the level's full-scale voltage `0.04` — because
`if self._gain` is falsy for the integer 0; at the other levels (here
level 1) it carries the full-scale voltage as documented. -/
theorem manual_overflow_gain0_zero_volts :
    _handle_current_overflow_manual true (some 0) = some ⟨0, false⟩ ∧
      _handle_current_overflow_manual true (some 1) = some ⟨2/25, false⟩ ∧
      (0 : ℚ) ≠ 1/25 := by
  refine ⟨?_, ?_, by norm_num⟩ <;>
    norm_num [_handle_current_overflow_manual, pyTruthy, pyGet, GAIN_VOLTS]

/-- A bus operation: a register read or a register write. -/
inductive Op : Type
  | read (reg : ℕ)
  | write (reg : ℕ) (val : ℤ)
deriving DecidableEq

/-- Source `__read_register` against a device whose register `r` currently reads
back as `d r`; returns the value and the bus-operation trace. -/
def __read_register (d : ℕ → ℕ) (reg : ℕ) : ℕ × List Op :=
  (d reg, [.read reg])

/-- Source `_read_voltage_register`: read register 0x02. -/
def _read_voltage_register (d : ℕ → ℕ) : ℕ × List Op :=
  __read_register d REG_BUSVOLTAGE

/-- Source `_voltage_register`: `self._read_voltage_register() >> 3`. -/
def _voltage_register (d : ℕ → ℕ) : ℕ × List Op :=
  ((_read_voltage_register d).1 >>> 3, (_read_voltage_register d).2)

/-- Source `voltage()`: `float(value) * self.__BUS_MILLIVOLTS_LSB / 1000`.  The
result type matches the other read calls; the body calls no overflow
handling and issues no write. -/
def voltage (d : ℕ → ℕ) : Except DeviceRangeError (ℚ × List Op) :=
  .ok ((((_voltage_register d).1 : ℚ) * BUS_MILLIVOLTS_LSB / 1000),
    (_voltage_register d).2)

/-- Source `_has_current_overflow`: bit 0 of the bus-voltage register. -/
def _has_current_overflow (d : ℕ → ℕ) : Bool × List Op :=
  ((((_read_voltage_register d).1 &&& 1) == 1),
    (_read_voltage_register d).2)

/-- Two's-complement decoding of a 16-bit register read with
`signed=True` (`struct.unpack('>h', ...)`). -/
def to_signed16 (v : ℕ) : ℤ :=
  if v < 0x8000 then (v : ℤ) else (v : ℤ) - 0x10000

/-- Source `current()` with auto gain disabled: `_handle_current_overflow`, then
`self._current_register() * self._current_lsb * 1000`. -/
def current_manual (d : ℕ → ℕ) (gain : Option ℤ) (current_lsb : ℚ) :
    Except DeviceRangeError (ℚ × List Op) :=
  match _handle_current_overflow_manual (_has_current_overflow d).1 gain with
  | some e => .error e
  | none => .ok ((to_signed16 (d REG_CURRENT) : ℚ) * current_lsb * 1000,
      (_has_current_overflow d).2 ++ [.read REG_CURRENT])

/-- Source `power()` with auto gain disabled. -/
def power_manual (d : ℕ → ℕ) (gain : Option ℤ) (power_lsb : ℚ) :
    Except DeviceRangeError (ℚ × List Op) :=
  match _handle_current_overflow_manual (_has_current_overflow d).1 gain with
  | some e => .error e
  | none => .ok ((d REG_POWER : ℚ) * power_lsb * 1000,
      (_has_current_overflow d).2 ++ [.read REG_POWER])

/-- Source `shunt_voltage()` with auto gain disabled. -/
def shunt_voltage_manual (d : ℕ → ℕ) (gain : Option ℤ) :
    Except DeviceRangeError (ℚ × List Op) :=
  match _handle_current_overflow_manual (_has_current_overflow d).1 gain with
  | some e => .error e
  | none => .ok ((to_signed16 (d REG_SHUNTVOLTAGE) : ℚ) *
        SHUNT_MILLIVOLTS_LSB,
      (_has_current_overflow d).2 ++ [.read REG_SHUNTVOLTAGE])

/-- C10: For every device state — including one with the overflow bit
set — `voltage()` performs exactly one read, of the bus-voltage register,
returns `(raw >> 3) * 4 / 1000`, writes nothing and raises nothing;
whereas with the overflow bit set, `current()`, `power()` and
`shunt_voltage()` (the callers of `_handle_current_overflow`) raise. -/
theorem voltage_pure_single_read (d : ℕ → ℕ) :
    voltage d = .ok (((d 2 >>> 3 : ℕ) : ℚ) * 4 / 1000, [Op.read 2]) ∧
      (d 2 &&& 1 = 1 →
        ∀ (g : Option ℤ) (lsb plsb : ℚ),
          (∃ e, current_manual d g lsb = .error e) ∧
            (∃ e, power_manual d g plsb = .error e) ∧
            (∃ e, shunt_voltage_manual d g = .error e)) := by
  constructor
  · rfl
  · intro hovf g lsb plsb
    have h : (_has_current_overflow d).1 = true := by
      simp [_has_current_overflow, _read_voltage_register, __read_register,
        REG_BUSVOLTAGE, hovf]
    refine ⟨⟨⟨if pyTruthy g then (pyGet GAIN_VOLTS (g.getD 0)).getD 0 else 0,
        false⟩, ?_⟩,
      ⟨⟨if pyTruthy g then (pyGet GAIN_VOLTS (g.getD 0)).getD 0 else 0,
        false⟩, ?_⟩,
      ⟨⟨if pyTruthy g then (pyGet GAIN_VOLTS (g.getD 0)).getD 0 else 0,
        false⟩, ?_⟩⟩ <;>
      simp [current_manual, power_manual, shunt_voltage_manual, h,
        _handle_current_overflow_manual]

/-- Witness for `voltage_pure_single_read` at a device whose bus-voltage
register reads `0xFA01` (value bits `8000`, overflow bit set):
`voltage()` returns 32 V while `current()` raises. -/
theorem voltage_pure_single_read_witness :
    voltage (fun _ => 0xFA01) = .ok ((32 : ℚ), [Op.read 2]) ∧
      ∃ e, current_manual (fun _ => 0xFA01) (some 1) (1/82000) = .error e := by
  have h := voltage_pure_single_read (fun _ => 0xFA01)
  refine ⟨?_, (h.2 (by decide) (some 1) (1/82000) 1).1⟩
  rw [h.1]
  norm_num [show ((0xFA01 : ℕ) >>> 3) = 8000 from by decide]

end INA219
